import Mathlib

/-!
Shallow embedding of the Socket.IO real-time relay of the Enhanced Chat
Platform (backend/socket handler, Chat model, Message model).

Identifiers (Mongo ObjectIds) are modelled as `Nat`, Clerk identifiers as
`String`, timestamps (`new Date()`) as an explicit `now : Nat` argument.
The persisted store (users, chats, messages), the in-memory
`connectedUsers` map and the socket.io room-membership table are combined
into one `ServerState`. Each socket event handler becomes a function from
state, socket and payload to a new state, updated socket and a list of
emitted events (`Emit`), exactly mirroring the JavaScript control flow.
-/

namespace ChatRelay

/-- A reaction entry of `messageSchema.reactions`: user id plus emoji. -/
structure Reaction where
  user : Nat
  emoji : String
deriving DecidableEq, Repr

/-- `messageSchema.content`: text, type (enum, default "text"), optional file. -/
structure MessageContent where
  text : String
  ctype : String
  file : Option String
deriving DecidableEq, Repr

/-- A persisted Message document (the fields the relay reads or writes). -/
structure Message where
  id : Nat
  chat : Nat
  sender : Nat
  content : MessageContent
  replyTo : Option Nat
  reactions : List Reaction
deriving DecidableEq, Repr

/-- A participant entry of `chatSchema.participants`. -/
structure Participant where
  user : Nat
  role : String
  lastRead : Nat
deriving DecidableEq, Repr

/-- A persisted Chat document (the fields the relay reads or writes). -/
structure Chat where
  id : Nat
  participants : List Participant
  lastMessage : Option Nat
  lastActivity : Nat
  isActive : Bool
deriving DecidableEq, Repr

/-- A persisted User document (the fields the relay reads or writes). -/
structure User where
  id : Nat
  clerkId : String
  isOnline : Bool
  lastSeen : Nat
  friends : List Nat
deriving DecidableEq, Repr

/-- A value of the `connectedUsers` map: socket id, user id, clerk id. -/
structure ConnEntry where
  socketId : Nat
  userId : Nat
  clerkId : String
deriving DecidableEq, Repr

/-- The whole observable server state: persisted collections, the in-memory
`connectedUsers` registry (an association list keyed by user id, mirroring
a JS `Map`), the socket.io room table as (chatId, socketId) pairs, and a
counter supplying fresh Message ids. -/
structure ServerState where
  users : List User
  chats : List Chat
  messages : List Message
  connectedUsers : List (Nat × ConnEntry)
  rooms : List (Nat × Nat)
  nextMessageId : Nat
deriving DecidableEq, Repr

/-- Per-connection socket state: `socket.id`, and the `socket.userId` /
`socket.clerkId` fields set by a successful authenticate. -/
structure Socket where
  id : Nat
  userId : Option Nat
  clerkId : Option String
deriving DecidableEq, Repr

/-- Target of an emitted event: `socket.emit` (caller), `io.to(room).emit`
(full room), `socket.to(room).emit` (room minus the emitting socket), or
`socket.to(socketId).emit` (one socket, still excluding the emitter). -/
inductive EmitTarget where
  | caller (sockId : Nat)
  | room (chatId : Nat)
  | roomExcept (chatId : Nat) (sockId : Nat)
  | direct (sockId : Nat) (senderSockId : Nat)
deriving DecidableEq, Repr

/-- Payloads of the server-to-client events the relay emits. -/
inductive Payload where
  | errMsg (message : String)
  | chatRef (chatId : Nat)
  | authOk (userId : Nat) (message : String)
  | newMsg (message : Message) (chatId : Nat)
  | typing (userId : Nat) (chatId : Nat)
  | reaction (messageId : Nat) (userId : Nat) (emoji : String)
  | msgsRead (userId : Nat) (chatId : Nat) (timestamp : Nat)
  | friendStatus (userId : Nat) (isOnline : Bool) (lastSeen : Nat)
deriving DecidableEq, Repr

/-- One emitted server-to-client event. -/
structure Emit where
  target : EmitTarget
  event : String
  payload : Payload
deriving DecidableEq, Repr

/-- Result of running one socket event handler. -/
structure HandlerResult where
  state : ServerState
  socket : Socket
  emits : List Emit
deriving DecidableEq, Repr

/-- Whether socket `s` receives emit `em`, given the room table of `st`:
room targets deliver to every subscribed socket (sender included for
`io.to`, excluded for `socket.to`); direct targets deliver to the one
socket, excluding the emitter (socket.io `socket.to(id)` semantics). -/
def delivers (st : ServerState) (em : Emit) (s : Nat) : Bool :=
  match em.target with
  | .caller c => s == c
  | .room c => st.rooms.contains (c, s)
  | .roomExcept c sender => st.rooms.contains (c, s) && s != sender
  | .direct t sender => s == t && s != sender

/-- JS truthiness test for an optional string: `!x` is true for a missing
field (`undefined`) and for the empty string. -/
def jsFalsy : Option String → Bool
  | none => true
  | some s => s == ""

/-- JS `x || d` for an optional string: missing or empty falls back to `d`. -/
def jsOrStr (x : Option String) (d : String) : String :=
  match x with
  | none => d
  | some s => if s == "" then d else s

/-- `connectedUsers.get(k)`: first (and, under the JS `Map` key-uniqueness
invariant, only) entry with key `k`. -/
def mapGet : List (Nat × ConnEntry) → Nat → Option ConnEntry
  | [], _ => none
  | e :: t, k => if e.1 == k then some e.2 else mapGet t k

/-- `connectedUsers.set(k, v)`: overwrite the entry for `k` in place when
present, append otherwise (JS `Map.set` semantics, insertion order kept). -/
def mapSet : List (Nat × ConnEntry) → Nat → ConnEntry → List (Nat × ConnEntry)
  | [], k, v => [(k, v)]
  | e :: t, k, v => if e.1 == k then (k, v) :: t else e :: mapSet t k v

/-- `connectedUsers.delete(k)`. -/
def mapDelete : List (Nat × ConnEntry) → Nat → List (Nat × ConnEntry)
  | [], _ => []
  | e :: t, k => if e.1 == k then mapDelete t k else e :: mapDelete t k

/-- `socket.join(chatId)`: socket.io room join, a no-op when already joined. -/
def roomJoin (rooms : List (Nat × Nat)) (chatId sockId : Nat) : List (Nat × Nat) :=
  if rooms.contains (chatId, sockId) then rooms else rooms ++ [(chatId, sockId)]

/-- `socket.leave(chatId)`. -/
def roomLeave (rooms : List (Nat × Nat)) (chatId sockId : Nat) : List (Nat × Nat) :=
  rooms.filter (fun r => !(r.1 == chatId && r.2 == sockId))

/-- `Chat.findById(chatId)` (no isActive filter). -/
def findChat (st : ServerState) (chatId : Nat) : Option Chat :=
  st.chats.find? (fun c => c.id == chatId)

/-- `Message.findById(messageId)`. -/
def findMessage (st : ServerState) (messageId : Nat) : Option Message :=
  st.messages.find? (fun m => m.id == messageId)

/-- `User.findById(userId)`. -/
def findUserById (st : ServerState) (userId : Nat) : Option User :=
  st.users.find? (fun u => u.id == userId)

/-- `User.findOne({clerkId})`. -/
def findUserByClerk (st : ServerState) (clerkId : String) : Option User :=
  st.users.find? (fun u => u.clerkId == clerkId)

/-- `User.findByIdAndUpdate(uid, {isOnline, lastSeen: new Date()})`. -/
def updateUserStatus (st : ServerState) (uid : Nat) (online : Bool) (now : Nat) : ServerState :=
  { st with users :=
      st.users.map (fun u => if u.id == uid then { u with isOnline := online, lastSeen := now } else u) }

/-- Saving a modified chat document: replace the document with that id. -/
def updateChat (st : ServerState) (chatId : Nat) (f : Chat → Chat) : ServerState :=
  { st with chats := st.chats.map (fun c => if c.id == chatId then f c else c) }

/-- Saving a modified message document: replace the document with that id. -/
def updateMessage (st : ServerState) (messageId : Nat) (f : Message → Message) : ServerState :=
  { st with messages := st.messages.map (fun m => if m.id == messageId then f m else m) }

/-- `chat.participants.some(p => p.user.toString() === socket.userId)`. -/
def isParticipant (c : Chat) (uid : Nat) : Bool :=
  c.participants.any (fun p => p.user == uid)

/-- `messageSchema.methods.addReaction`: remove any existing reaction of the
same user with the same emoji, then push a fresh one. -/
def addReaction (rs : List Reaction) (userId : Nat) (emoji : String) : List Reaction :=
  (rs.filter (fun r => !(r.user == userId && r.emoji == emoji))) ++ [⟨userId, emoji⟩]

/-- `chatSchema.methods.updateLastRead` followed by the chat pre-save hook:
when the user has a participant entry, refresh its lastRead and (via the
pre-save middleware on `save`) the chat's lastActivity; otherwise the
method returns without saving and nothing changes. -/
def updateLastRead (st : ServerState) (chatId uid now : Nat) : ServerState :=
  match findChat st chatId with
  | none => st
  | some c =>
    if isParticipant c uid then
      updateChat st chatId (fun ch =>
        { ch with
            participants := ch.participants.map
              (fun p => if p.user == uid then { p with lastRead := now } else p),
            lastActivity := now })
    else st

/-- `Chat.findUserChats(userId)`: active chats where the user participates. -/
def findUserChats (st : ServerState) (uid : Nat) : List Chat :=
  st.chats.filter (fun c => c.isActive && isParticipant c uid)

/-- `notifyFriendsStatusChange(userId, isOnline, socket)`: load the user and
their friend list, and for each friend with a `connectedUsers` entry send a
direct `friend-status-change` to that friend's socket. `loadOk = false`
models the friend-list load throwing: the catch inside the helper logs and
returns, so no emit and no propagated error. -/
def notifyFriendsStatusChange (st : ServerState) (userId : Nat) (isOnline : Bool)
    (senderSock : Nat) (now : Nat) (loadOk : Bool) : List Emit :=
  if loadOk then
    match findUserById st userId with
    | some u =>
      u.friends.filterMap (fun f =>
        match mapGet st.connectedUsers f with
        | some conn =>
          some ⟨.direct conn.socketId senderSock, "friend-status-change",
                .friendStatus userId isOnline now⟩
        | none => none)
    | none => []
  else []

/-- Shorthand for emitting an `error` event back to the caller. -/
def errTo (sock : Socket) (msg : String) : Emit :=
  ⟨.caller sock.id, "error", .errMsg msg⟩

/-- The `authenticate` handler. `rawUserId` is `data.userId` (`none` models
a missing field). `friendLoadOk` feeds `notifyFriendsStatusChange`. -/
def authenticateHandler (st : ServerState) (sock : Socket) (rawUserId : Option String)
    (now : Nat) (friendLoadOk : Bool) : HandlerResult :=
  if jsFalsy rawUserId then
    ⟨st, sock, [errTo sock "User ID is required"]⟩
  else
    let uid := rawUserId.getD ""
    match findUserByClerk st uid with
    | none => ⟨st, sock, [errTo sock "User not found"]⟩
    | some user =>
      let sock' : Socket := { sock with userId := some user.id, clerkId := some uid }
      let st1 := { st with
        connectedUsers := mapSet st.connectedUsers user.id ⟨sock.id, user.id, uid⟩ }
      let st2 := updateUserStatus st1 user.id true now
      let userChats := findUserChats st2 user.id
      let st3 := { st2 with
        rooms := userChats.foldl (fun r c => roomJoin r c.id sock.id) st2.rooms }
      let friendEmits := notifyFriendsStatusChange st3 user.id true sock.id now friendLoadOk
      ⟨st3, sock',
        friendEmits ++
          [⟨.caller sock.id, "authenticated", .authOk user.id "Successfully authenticated"⟩]⟩

/-- The `join-chat` handler. -/
def joinChatHandler (st : ServerState) (sock : Socket) (chatId : Nat) : HandlerResult :=
  match sock.userId with
  | none => ⟨st, sock, [errTo sock "Not authenticated"]⟩
  | some uid =>
    match findChat st chatId with
    | none => ⟨st, sock, [errTo sock "Chat not found"]⟩
    | some chat =>
      if isParticipant chat uid then
        ⟨{ st with rooms := roomJoin st.rooms chatId sock.id }, sock,
          [⟨.caller sock.id, "joined-chat", .chatRef chatId⟩]⟩
      else
        ⟨st, sock, [errTo sock "Access denied"]⟩

/-- The `leave-chat` handler: no authentication or membership check. -/
def leaveChatHandler (st : ServerState) (sock : Socket) (chatId : Nat) : HandlerResult :=
  ⟨{ st with rooms := roomLeave st.rooms chatId sock.id }, sock,
    [⟨.caller sock.id, "left-chat", .chatRef chatId⟩]⟩

/-- The `send-message` handler payload: `data.content` plus `data.replyTo`. -/
structure SendPayload where
  text : String
  ctype : Option String
  file : Option String
  replyTo : Option Nat
deriving DecidableEq, Repr

/-- The Message document built by `Message.create` in `send-message`:
`content.type || 'text'` defaults the type. -/
def mkMessage (st : ServerState) (chatId uid : Nat) (p : SendPayload) : Message :=
  ⟨st.nextMessageId, chatId, uid,
    ⟨p.text, jsOrStr p.ctype "text", p.file⟩, p.replyTo, []⟩

/-- The `send-message` handler. -/
def sendMessageHandler (st : ServerState) (sock : Socket) (chatId : Nat)
    (p : SendPayload) (now : Nat) : HandlerResult :=
  match sock.userId with
  | none => ⟨st, sock, [errTo sock "Not authenticated"]⟩
  | some uid =>
    match findChat st chatId with
    | none => ⟨st, sock, [errTo sock "Chat not found"]⟩
    | some chat =>
      if isParticipant chat uid then
        let msg := mkMessage st chatId uid p
        let st1 := { st with
          messages := st.messages ++ [msg],
          nextMessageId := st.nextMessageId + 1 }
        let st2 := updateChat st1 chatId (fun c =>
          { c with lastMessage := some msg.id, lastActivity := now })
        ⟨st2, sock, [⟨.room chatId, "new-message", .newMsg msg chatId⟩]⟩
      else
        ⟨st, sock, [errTo sock "Access denied"]⟩

/-- The `typing-start` handler: broadcast only when `socket.userId` is set,
otherwise a silent no-op (no error emit). -/
def typingStartHandler (st : ServerState) (sock : Socket) (chatId : Nat) : HandlerResult :=
  match sock.userId with
  | some uid =>
    ⟨st, sock, [⟨.roomExcept chatId sock.id, "user-typing", .typing uid chatId⟩]⟩
  | none => ⟨st, sock, []⟩

/-- The `typing-stop` handler, symmetric to `typing-start`. -/
def typingStopHandler (st : ServerState) (sock : Socket) (chatId : Nat) : HandlerResult :=
  match sock.userId with
  | some uid =>
    ⟨st, sock, [⟨.roomExcept chatId sock.id, "user-stopped-typing", .typing uid chatId⟩]⟩
  | none => ⟨st, sock, []⟩

/-- The `add-reaction` handler: loads the message, upserts via
`message.addReaction`, broadcasts to the full room of the message's owning
chat. There is no participant check. -/
def addReactionHandler (st : ServerState) (sock : Socket) (messageId : Nat)
    (emoji : String) : HandlerResult :=
  match sock.userId with
  | none => ⟨st, sock, [errTo sock "Not authenticated"]⟩
  | some uid =>
    match findMessage st messageId with
    | none => ⟨st, sock, [errTo sock "Message not found"]⟩
    | some msg =>
      let st1 := updateMessage st messageId (fun m =>
        { m with reactions := addReaction m.reactions uid emoji })
      ⟨st1, sock,
        [⟨.room msg.chat, "reaction-added", .reaction messageId uid emoji⟩]⟩

/-- The `mark-read` handler: silent return when unauthenticated or the chat
is absent; otherwise `chat.updateLastRead` then a room-minus-sender
`messages-read` broadcast. -/
def markReadHandler (st : ServerState) (sock : Socket) (chatId : Nat) (now : Nat) :
    HandlerResult :=
  match sock.userId with
  | none => ⟨st, sock, []⟩
  | some uid =>
    match findChat st chatId with
    | none => ⟨st, sock, []⟩
    | some _ =>
      let st1 := updateLastRead st chatId uid now
      ⟨st1, sock,
        [⟨.roomExcept chatId sock.id, "messages-read", .msgsRead uid chatId now⟩]⟩

/-- The `disconnect` handler: for an authenticated socket, delete the
registry entry, mark the user offline and notify connected friends; the
socket remains terminal. Unauthenticated disconnects do nothing. -/
def disconnectHandler (st : ServerState) (sock : Socket) (now : Nat)
    (friendLoadOk : Bool) : HandlerResult :=
  match sock.userId with
  | none => ⟨st, sock, []⟩
  | some uid =>
    let st1 := { st with connectedUsers := mapDelete st.connectedUsers uid }
    let st2 := updateUserStatus st1 uid false now
    let emits := notifyFriendsStatusChange st2 uid false sock.id now friendLoadOk
    ⟨st2, sock, emits⟩

/-- A client-to-server event with its payload, for sequencing handlers. -/
inductive ClientEvent where
  | authenticate (rawUserId : Option String) (friendLoadOk : Bool)
  | joinChat (chatId : Nat)
  | leaveChat (chatId : Nat)
  | sendMessage (chatId : Nat) (p : SendPayload)
  | typingStart (chatId : Nat)
  | typingStop (chatId : Nat)
  | addReactionEv (messageId : Nat) (emoji : String)
  | markRead (chatId : Nat)
  | disconnect (friendLoadOk : Bool)
deriving DecidableEq, Repr

/-- Dispatch of one inbound event to its handler. -/
def handleEvent (st : ServerState) (sock : Socket) (ev : ClientEvent) (now : Nat) :
    HandlerResult :=
  match ev with
  | .authenticate raw ok => authenticateHandler st sock raw now ok
  | .joinChat c => joinChatHandler st sock c
  | .leaveChat c => leaveChatHandler st sock c
  | .sendMessage c p => sendMessageHandler st sock c p now
  | .typingStart c => typingStartHandler st sock c
  | .typingStop c => typingStopHandler st sock c
  | .addReactionEv m e => addReactionHandler st sock m e
  | .markRead c => markReadHandler st sock c now
  | .disconnect ok => disconnectHandler st sock now ok

/-- Run a sequence of events, each from an arbitrary socket at an arbitrary
time, threading only the server state (an over-approximation of every
reachable interleaving of connections). -/
def runEvents (st : ServerState) : List (Socket × ClientEvent × Nat) → ServerState
  | [] => st
  | (sock, ev, now) :: rest => runEvents (handleEvent st sock ev now).state rest

/-! ### Helper lemmas -/

/-- `find?` commutes with a map that rewrites exactly the matching elements,
provided the rewrite preserves matching. -/
theorem find?_condMap {α : Type} (l : List α) (p : α → Bool) (f : α → α)
    (hf : ∀ a, p a = true → p (f a) = true) :
    (l.map (fun a => if p a then f a else a)).find? p =
      (l.find? p).map (fun a => if p a then f a else a) := by
  induction l with
  | nil => rfl
  | cons a t ih =>
    by_cases h : p a = true
    · simp [List.find?, h, hf a h]
    · have h' : p a = false := by
        cases hpa : p a
        · rfl
        · exact absurd hpa h
      simp [List.find?, h', ih]

/-- `findMessage` after `updateMessage` returns the updated document. -/
theorem findMessage_updateMessage (st : ServerState) (mid : Nat) (f : Message → Message)
    (hf : ∀ m, (f m).id = m.id) :
    findMessage (updateMessage st mid f) mid =
      (findMessage st mid).map (fun m => if m.id == mid then f m else m) := by
  unfold findMessage updateMessage
  exact find?_condMap st.messages (fun m => m.id == mid) f
    (fun m hm => by simp only [hf]; exact hm)

/-- `findChat` after `updateChat` returns the updated document. -/
theorem findChat_updateChat (st : ServerState) (cid : Nat) (f : Chat → Chat)
    (hf : ∀ c, (f c).id = c.id) :
    findChat (updateChat st cid f) cid =
      (findChat st cid).map (fun c => if c.id == cid then f c else c) := by
  unfold findChat updateChat
  exact find?_condMap st.chats (fun c => c.id == cid) f
    (fun c hc => by simp only [hf]; exact hc)

/-- `findUserById` after `updateUserStatus` returns the updated document. -/
theorem findUserById_updateUserStatus (st : ServerState) (uid : Nat) (b : Bool) (t : Nat) :
    findUserById (updateUserStatus st uid b t) uid =
      (findUserById st uid).map (fun u =>
        if u.id == uid then { u with isOnline := b, lastSeen := t } else u) := by
  unfold findUserById updateUserStatus
  exact find?_condMap st.users (fun u => u.id == uid)
    (fun u => { u with isOnline := b, lastSeen := t }) (fun u hu => hu)

/-- Deleting key `k` leaves lookups of other keys unchanged. -/
theorem mapGet_mapDelete_ne (m : List (Nat × ConnEntry)) (k k' : Nat) (h : k' ≠ k) :
    mapGet (mapDelete m k) k' = mapGet m k' := by
  induction m with
  | nil => rfl
  | cons e t ih =>
    by_cases he : e.1 = k
    · simp [mapDelete, mapGet, he, h, Ne.symm h, ih]
    · by_cases he' : e.1 = k'
      · simp [mapDelete, mapGet, he, he', h]
      · simp [mapDelete, mapGet, he, he', h, ih]

/-- `set` followed by `get` of the same key yields the new value. -/
theorem mapGet_mapSet_self (m : List (Nat × ConnEntry)) (k : Nat) (v : ConnEntry) :
    mapGet (mapSet m k v) k = some v := by
  induction m with
  | nil => simp [mapSet, mapGet]
  | cons e t ih =>
    by_cases he : e.1 = k
    · simp [mapSet, mapGet, he]
    · simp [mapSet, mapGet, he, ih]

/-- `mapSet` does not change how often keys other than the set key occur. -/
theorem count_keys_mapSet_ne (m : List (Nat × ConnEntry)) (k : Nat) (v : ConnEntry)
    (k' : Nat) (h : k' ≠ k) :
    ((mapSet m k v).map Prod.fst).count k' = (m.map Prod.fst).count k' := by
  induction m with
  | nil => simp [mapSet, List.count_cons, h]
  | cons e t ih =>
    by_cases he : e.1 = k
    · subst he
      simp [mapSet, List.count_cons]
    · simp [mapSet, he, List.count_cons, ih]

/-- Under key uniqueness, after `mapSet` the set key occurs exactly once. -/
theorem count_keys_mapSet_self (m : List (Nat × ConnEntry)) (k : Nat) (v : ConnEntry)
    (h : ∀ k2, (m.map Prod.fst).count k2 ≤ 1) :
    ((mapSet m k v).map Prod.fst).count k = 1 := by
  induction m with
  | nil => simp [mapSet]
  | cons e t ih =>
    have ht : ∀ k2, (t.map Prod.fst).count k2 ≤ 1 := by
      intro k2
      have hk2 := h k2
      simp only [List.map_cons, List.count_cons] at hk2
      omega
    by_cases he : e.1 = k
    · subst he
      have hk := h e.1
      simp [List.count_cons] at hk
      simp [mapSet, List.count_cons]
      omega
    · simp [mapSet, he, List.count_cons, Ne.symm he, ih ht]

/-- `mapSet` keeps the at-most-one-entry-per-key invariant. -/
theorem count_keys_mapSet_le_one (m : List (Nat × ConnEntry)) (k : Nat) (v : ConnEntry)
    (h : ∀ k2, (m.map Prod.fst).count k2 ≤ 1) (k' : Nat) :
    ((mapSet m k v).map Prod.fst).count k' ≤ 1 := by
  by_cases hk : k' = k
  · subst hk
    exact le_of_eq (count_keys_mapSet_self m k' v h)
  · rw [count_keys_mapSet_ne m k v k' hk]
    exact h k'

/-- `mapDelete` never increases how often a key occurs. -/
theorem count_keys_mapDelete_le (m : List (Nat × ConnEntry)) (k k' : Nat) :
    ((mapDelete m k).map Prod.fst).count k' ≤ (m.map Prod.fst).count k' := by
  induction m with
  | nil => simp [mapDelete]
  | cons e t ih =>
    by_cases he : e.1 = k
    · subst he
      by_cases he' : k' = e.1
      · subst he'
        simp [mapDelete, List.count_cons]
        omega
      · simp [mapDelete, List.count_cons, he']
        omega
    · by_cases he' : k' = e.1
      · subst he'
        simp [mapDelete, he, List.count_cons]
        omega
      · simp [mapDelete, he, List.count_cons, he']
        omega

/-- Counting over a `filterMap`, given a pointwise description of how the
produced elements satisfy the predicate. -/
theorem countP_filterMap_eq {α β : Type} (l : List α) (f : α → Option β)
    (p : β → Bool) (q : α → Bool)
    (h : ∀ a ∈ l, (match f a with | some b => p b | none => false) = q a) :
    (l.filterMap f).countP p = l.countP q := by
  induction l with
  | nil => rfl
  | cons a t ih =>
    have ha := h a (List.mem_cons_self a t)
    have ht : ∀ a2 ∈ t, (match f a2 with | some b => p b | none => false) = q a2 :=
      fun a2 hm => h a2 (List.mem_cons_of_mem a hm)
    cases hfa : f a with
    | none =>
      rw [hfa] at ha
      rw [List.filterMap_cons_none hfa, List.countP_cons, ih ht, ← ha]
      simp
    | some b =>
      rw [hfa] at ha
      have hab : p b = q a := ha
      rw [List.filterMap_cons_some hfa, List.countP_cons, List.countP_cons, ih ht, hab]

/-- The length of a `filterMap` is the number of inputs it keeps. -/
theorem length_filterMap_eq_countP {α β : Type} (l : List α) (f : α → Option β) :
    (l.filterMap f).length = l.countP (fun a => (f a).isSome) := by
  induction l with
  | nil => rfl
  | cons a t ih =>
    cases hfa : f a with
    | none =>
      rw [List.filterMap_cons_none hfa, List.countP_cons, ih]
      simp [hfa]
    | some b =>
      rw [List.filterMap_cons_some hfa, List.countP_cons]
      simp [hfa, ih]

/-- `join-chat` never touches the connection registry. -/
theorem connectedUsers_joinChat (st : ServerState) (sock : Socket) (c : Nat) :
    (joinChatHandler st sock c).state.connectedUsers = st.connectedUsers := by
  cases h : sock.userId with
  | none => simp [joinChatHandler, h]
  | some uid =>
    cases hc : findChat st c with
    | none => simp [joinChatHandler, h, hc]
    | some chat =>
      by_cases hp : isParticipant chat uid
      · simp [joinChatHandler, h, hc, hp]
      · simp [joinChatHandler, h, hc, hp]

/-- `send-message` never touches the connection registry. -/
theorem connectedUsers_sendMessage (st : ServerState) (sock : Socket) (c : Nat)
    (p : SendPayload) (now : Nat) :
    (sendMessageHandler st sock c p now).state.connectedUsers = st.connectedUsers := by
  cases h : sock.userId with
  | none => simp [sendMessageHandler, h]
  | some uid =>
    cases hc : findChat st c with
    | none => simp [sendMessageHandler, h, hc]
    | some chat =>
      by_cases hp : isParticipant chat uid
      · simp [sendMessageHandler, h, hc, hp, updateChat]
      · simp [sendMessageHandler, h, hc, hp]

/-- `add-reaction` never touches the connection registry. -/
theorem connectedUsers_addReaction (st : ServerState) (sock : Socket) (mid : Nat)
    (emoji : String) :
    (addReactionHandler st sock mid emoji).state.connectedUsers = st.connectedUsers := by
  cases h : sock.userId with
  | none => simp [addReactionHandler, h]
  | some uid =>
    cases hm : findMessage st mid with
    | none => simp [addReactionHandler, h, hm]
    | some msg => simp [addReactionHandler, h, hm, updateMessage]

/-- `mark-read` never touches the connection registry. -/
theorem connectedUsers_markRead (st : ServerState) (sock : Socket) (c now : Nat) :
    (markReadHandler st sock c now).state.connectedUsers = st.connectedUsers := by
  cases h : sock.userId with
  | none => simp [markReadHandler, h]
  | some uid =>
    cases hc : findChat st c with
    | none => simp [markReadHandler, h, hc]
    | some chat =>
      simp only [markReadHandler, h, hc, updateLastRead]
      by_cases hp : isParticipant chat uid
      · simp [hc, hp, updateChat]
      · simp [hc, hp]

/-- What `authenticate` does to the registry: nothing on the error paths,
a `mapSet` for the found user on success. -/
theorem connectedUsers_authenticate (st : ServerState) (sock : Socket)
    (raw : Option String) (now : Nat) (ok : Bool) :
    (authenticateHandler st sock raw now ok).state.connectedUsers = st.connectedUsers ∨
    ∃ user, findUserByClerk st (raw.getD "") = some user ∧
      (authenticateHandler st sock raw now ok).state.connectedUsers =
        mapSet st.connectedUsers user.id ⟨sock.id, user.id, raw.getD ""⟩ := by
  by_cases hf : jsFalsy raw
  · left
    simp [authenticateHandler, hf]
  · cases hu : findUserByClerk st (raw.getD "") with
    | none =>
      left
      simp [authenticateHandler, hf, hu]
    | some user =>
      right
      refine ⟨user, rfl, ?_⟩
      simp [authenticateHandler, hf, hu, updateUserStatus]

/-- What `disconnect` does to the registry: nothing when unauthenticated,
a `mapDelete` of the socket's user otherwise. -/
theorem connectedUsers_disconnect (st : ServerState) (sock : Socket) (now : Nat)
    (ok : Bool) :
    (disconnectHandler st sock now ok).state.connectedUsers = st.connectedUsers ∨
    ∃ uid, sock.userId = some uid ∧
      (disconnectHandler st sock now ok).state.connectedUsers =
        mapDelete st.connectedUsers uid := by
  cases h : sock.userId with
  | none =>
    left
    simp [disconnectHandler, h]
  | some uid =>
    right
    refine ⟨uid, rfl, ?_⟩
    simp [disconnectHandler, h, updateUserStatus]

/-- Every single event keeps the registry's at-most-one-entry-per-user
invariant. -/
theorem registry_step (st : ServerState) (sock : Socket) (ev : ClientEvent) (now : Nat)
    (h : ∀ k, ((st.connectedUsers.map Prod.fst).count k) ≤ 1) (k : Nat) :
    (((handleEvent st sock ev now).state.connectedUsers.map Prod.fst).count k) ≤ 1 := by
  cases ev with
  | authenticate raw ok =>
    simp only [handleEvent]
    rcases connectedUsers_authenticate st sock raw now ok with heq | ⟨user, _, heq⟩
    · rw [heq]
      exact h k
    · rw [heq]
      exact count_keys_mapSet_le_one st.connectedUsers user.id _ h k
  | joinChat c =>
    simp only [handleEvent]
    rw [connectedUsers_joinChat st sock c]
    exact h k
  | leaveChat c =>
    simp only [handleEvent, leaveChatHandler]
    exact h k
  | sendMessage c p =>
    simp only [handleEvent]
    rw [connectedUsers_sendMessage st sock c p now]
    exact h k
  | typingStart c =>
    cases hs : sock.userId with
    | none => simp only [handleEvent, typingStartHandler, hs]; exact h k
    | some uid => simp only [handleEvent, typingStartHandler, hs]; exact h k
  | typingStop c =>
    cases hs : sock.userId with
    | none => simp only [handleEvent, typingStopHandler, hs]; exact h k
    | some uid => simp only [handleEvent, typingStopHandler, hs]; exact h k
  | addReactionEv m e =>
    simp only [handleEvent]
    rw [connectedUsers_addReaction st sock m e]
    exact h k
  | markRead c =>
    simp only [handleEvent]
    rw [connectedUsers_markRead st sock c now]
    exact h k
  | disconnect ok =>
    simp only [handleEvent]
    rcases connectedUsers_disconnect st sock now ok with heq | ⟨uid, _, heq⟩
    · rw [heq]
      exact h k
    · rw [heq]
      exact le_trans (count_keys_mapDelete_le st.connectedUsers uid k) (h k)

/-- The registry invariant is preserved along any event sequence. -/
theorem registry_runEvents (steps : List (Socket × ClientEvent × Nat)) (st : ServerState)
    (h : ∀ k, ((st.connectedUsers.map Prod.fst).count k) ≤ 1) (k : Nat) :
    (((runEvents st steps).connectedUsers.map Prod.fst).count k) ≤ 1 := by
  induction steps generalizing st with
  | nil => exact h k
  | cons s rest ih =>
    rcases s with ⟨sock, ev, now⟩
    exact ih (handleEvent st sock ev now).state (registry_step st sock ev now h)

/-! ### Concrete fixtures used by witnesses and counterexamples -/

/-- A user (id 10) whose friends are user 20 (connected) and user 30. -/
def exUser : User := ⟨10, "clerk-a", false, 0, [20, 30]⟩

/-- A friend of `exUser` who is currently connected on socket 99. -/
def exFriend : User := ⟨20, "clerk-b", true, 0, []⟩

/-- A user (id 30) who participates in no chat. -/
def exStranger : User := ⟨30, "clerk-c", false, 0, []⟩

/-- A chat (id 1) whose participants are users 10 and 20. -/
def exChat : Chat := ⟨1, [⟨10, "admin", 0⟩, ⟨20, "member", 0⟩], none, 0, true⟩

/-- A message (id 5) in chat 1 sent by user 10. -/
def exMessage : Message := ⟨5, 1, 10, ⟨"hi", "text", none⟩, none, []⟩

/-- A server state with the three users, the chat, the message, user 20
registered on socket 99 and subscribed to chat 1's room. -/
def exState : ServerState :=
  ⟨[exUser, exFriend, exStranger], [exChat], [exMessage],
    [(20, ⟨99, 20, "clerk-b"⟩)], [(1, 99)], 6⟩

/-- A socket (id 7) that has not authenticated. -/
def exSockUnauth : Socket := ⟨7, none, none⟩

/-- Socket 7 after authenticating as user 10. -/
def exSockAuth : Socket := ⟨7, some 10, some "clerk-a"⟩

/-- Socket 8 authenticated as user 30, who participates in no chat. -/
def exSockStranger : Socket := ⟨8, some 30, some "clerk-c"⟩

/-! ### Claim theorems -/

/-- C1 counterexample: on an unauthenticated connection, `leave-chat` does
not emit any `error` event — it emits a `left-chat` confirmation — and
`typing-start` and `mark-read` emit nothing at all, refuting the claim
that every chat-scoped event issued before authentication yields an
`error` event with message "Not authenticated". -/
theorem unauthenticated_leaveChat_no_error_cex :
    (leaveChatHandler exState exSockUnauth 1).emits.countP
        (fun em => em.event == "error") = 0 ∧
    (leaveChatHandler exState exSockUnauth 1).emits =
      [⟨.caller 7, "left-chat", .chatRef 1⟩] ∧
    (typingStartHandler exState exSockUnauth 1).emits = [] ∧
    (markReadHandler exState exSockUnauth 1 0).emits = [] :=
  ⟨rfl, rfl, rfl, rfl⟩

/-- C1 (amended): before a successful authenticate, `join-chat`,
`send-message` and `add-reaction` emit a single `error` "Not authenticated"
to the caller with no state change and no broadcast; `typing-start`,
`typing-stop` and `mark-read` are silent no-ops (no emit, no state change);
`leave-chat` unconditionally unsubscribes the socket and emits `left-chat`
to the caller, never an error. -/
theorem unauthenticated_event_behavior (st : ServerState) (sock : Socket)
    (h : sock.userId = none) (c mid now : Nat) (p : SendPayload) (emoji : String) :
    joinChatHandler st sock c = ⟨st, sock, [errTo sock "Not authenticated"]⟩ ∧
    sendMessageHandler st sock c p now = ⟨st, sock, [errTo sock "Not authenticated"]⟩ ∧
    addReactionHandler st sock mid emoji = ⟨st, sock, [errTo sock "Not authenticated"]⟩ ∧
    typingStartHandler st sock c = ⟨st, sock, []⟩ ∧
    typingStopHandler st sock c = ⟨st, sock, []⟩ ∧
    markReadHandler st sock c now = ⟨st, sock, []⟩ ∧
    leaveChatHandler st sock c =
      ⟨{ st with rooms := roomLeave st.rooms c sock.id }, sock,
        [⟨.caller sock.id, "left-chat", .chatRef c⟩]⟩ := by
  refine ⟨?_, ?_, ?_, ?_, ?_, ?_, rfl⟩ <;>
    simp [joinChatHandler, sendMessageHandler, addReactionHandler,
      typingStartHandler, typingStopHandler, markReadHandler, h]

/-- Witness for the amended C1 theorem at a concrete unauthenticated socket. -/
theorem unauthenticated_event_behavior_witness :
    exSockUnauth.userId = none ∧
    joinChatHandler exState exSockUnauth 1 =
      ⟨exState, exSockUnauth, [errTo exSockUnauth "Not authenticated"]⟩ :=
  ⟨rfl, (unauthenticated_event_behavior exState exSockUnauth rfl 1 5 0
      ⟨"hi", none, none, none⟩ "x").1⟩

/-- C3: an authenticated caller who is not a participant of an existing
chat gets a single `error` "Access denied" to the caller only from
`send-message`, and the state is completely unchanged: no Message
persisted, no chat mutation, no broadcast. -/
theorem sendMessage_access_denied (st : ServerState) (sock : Socket) (chatId : Nat)
    (p : SendPayload) (now uid : Nat) (chat : Chat)
    (hauth : sock.userId = some uid)
    (hchat : findChat st chatId = some chat)
    (hnp : isParticipant chat uid = false) :
    sendMessageHandler st sock chatId p now =
      ⟨st, sock, [⟨.caller sock.id, "error", .errMsg "Access denied"⟩]⟩ := by
  simp [sendMessageHandler, hauth, hchat, hnp, errTo]

/-- Witness for C3: user 30 is no participant of chat 1, so their
send-message is rejected with "Access denied" and changes nothing. -/
theorem sendMessage_access_denied_witness :
    exSockStranger.userId = some 30 ∧
    findChat exState 1 = some exChat ∧
    isParticipant exChat 30 = false ∧
    sendMessageHandler exState exSockStranger 1 ⟨"hi", none, none, none⟩ 0 =
      ⟨exState, exSockStranger, [⟨.caller 8, "error", .errMsg "Access denied"⟩]⟩ :=
  ⟨rfl, rfl, rfl,
    sendMessage_access_denied exState exSockStranger 1 ⟨"hi", none, none, none⟩ 0 30
      exChat rfl rfl rfl⟩

/-- C5: the reaction upsert is idempotent — applying `addReaction` twice
with the same (user, emoji) pair equals applying it once, and the result
holds exactly one reaction entry for that pair. -/
theorem addReaction_idempotent_upsert (rs : List Reaction) (u : Nat) (e : String) :
    addReaction (addReaction rs u e) u e = addReaction rs u e ∧
    (addReaction (addReaction rs u e) u e).countP
      (fun r => r.user == u && r.emoji == e) = 1 := by
  constructor
  · simp [addReaction, List.filter_append, List.filter_filter]
  · simp [addReaction, List.countP_append, List.countP_filter, List.countP_cons]

/-- C8: `leave-chat` is never rejected — for every connection (even one
that never joined, or never authenticated) it unsubscribes the socket,
emits exactly one `left-chat` confirmation to the caller and no `error`. -/
theorem leaveChat_always_succeeds (st : ServerState) (sock : Socket) (chatId : Nat) :
    leaveChatHandler st sock chatId =
      ⟨{ st with rooms := roomLeave st.rooms chatId sock.id }, sock,
        [⟨.caller sock.id, "left-chat", .chatRef chatId⟩]⟩ ∧
    (leaveChatHandler st sock chatId).emits.countP
      (fun em => em.event == "error") = 0 :=
  ⟨rfl, rfl⟩

/-- C9: an authenticated non-participant's `mark-read` on an existing chat
changes nothing (updateLastRead finds no participant entry) yet still
broadcasts `messages-read` {userId, chatId, timestamp} to the room minus
the caller. -/
theorem markRead_nonparticipant_broadcasts (st : ServerState) (sock : Socket)
    (chatId now uid : Nat) (chat : Chat)
    (hauth : sock.userId = some uid)
    (hchat : findChat st chatId = some chat)
    (hnp : isParticipant chat uid = false) :
    markReadHandler st sock chatId now =
      ⟨st, sock,
        [⟨.roomExcept chatId sock.id, "messages-read", .msgsRead uid chatId now⟩]⟩ := by
  simp [markReadHandler, updateLastRead, hauth, hchat, hnp]

/-- Witness for C9: non-participant user 30 marks chat 1 read; the state is
untouched and the room-minus-sender broadcast still goes out. -/
theorem markRead_nonparticipant_broadcasts_witness :
    exSockStranger.userId = some 30 ∧
    findChat exState 1 = some exChat ∧
    isParticipant exChat 30 = false ∧
    markReadHandler exState exSockStranger 1 42 =
      ⟨exState, exSockStranger,
        [⟨.roomExcept 1 8, "messages-read", .msgsRead 30 1 42⟩]⟩ :=
  ⟨rfl, rfl, rfl,
    markRead_nonparticipant_broadcasts exState exSockStranger 1 42 30 exChat rfl rfl rfl⟩

/-- C10: `authenticate` with a missing or empty userId emits a single
`error` "User ID is required" to the caller and has no other effect: the
state (registry included) and the socket are unchanged. -/
theorem authenticate_requires_userId (st : ServerState) (sock : Socket) (now : Nat)
    (ok : Bool) (raw : Option String) (h : raw = none ∨ raw = some "") :
    authenticateHandler st sock raw now ok =
      ⟨st, sock, [⟨.caller sock.id, "error", .errMsg "User ID is required"⟩]⟩ := by
  rcases h with rfl | rfl <;> simp [authenticateHandler, jsFalsy, errTo]

/-- Witness for C10 at a concrete payload with the userId field absent. -/
theorem authenticate_requires_userId_witness :
    ((none : Option String) = none ∨ (none : Option String) = some "") ∧
    authenticateHandler exState exSockUnauth none 3 true =
      ⟨exState, exSockUnauth, [⟨.caller 7, "error", .errMsg "User ID is required"⟩]⟩ :=
  ⟨Or.inl rfl,
    authenticate_requires_userId exState exSockUnauth 3 true none (Or.inl rfl)⟩

/-- C6: for any authenticated caller and any existing message — with no
hypothesis at all about the caller being a participant of the message's
chat — `add-reaction` persists the upserted reaction on the message and
broadcasts `reaction-added` {messageId, userId, emoji} to the full room of
the message's owning chat. -/
theorem addReaction_persists_and_broadcasts (st : ServerState) (sock : Socket)
    (messageId : Nat) (emoji : String) (uid : Nat) (msg : Message)
    (hauth : sock.userId = some uid)
    (hmsg : findMessage st messageId = some msg) :
    addReactionHandler st sock messageId emoji =
      ⟨updateMessage st messageId
          (fun m => { m with reactions := addReaction m.reactions uid emoji }),
        sock,
        [⟨.room msg.chat, "reaction-added", .reaction messageId uid emoji⟩]⟩ ∧
    (findMessage (addReactionHandler st sock messageId emoji).state messageId).map
        Message.reactions
      = some (addReaction msg.reactions uid emoji) := by
  have hmsg' : st.messages.find? (fun m => m.id == messageId) = some msg := hmsg
  have hid0 := List.find?_some hmsg'
  have hid : (msg.id == messageId) = true := hid0
  have heq : addReactionHandler st sock messageId emoji =
      ⟨updateMessage st messageId
          (fun m => { m with reactions := addReaction m.reactions uid emoji }),
        sock,
        [⟨.room msg.chat, "reaction-added", .reaction messageId uid emoji⟩]⟩ := by
    simp [addReactionHandler, hauth, hmsg]
  have hstate : (addReactionHandler st sock messageId emoji).state =
      updateMessage st messageId
        (fun m => { m with reactions := addReaction m.reactions uid emoji }) := by
    rw [heq]
  refine ⟨heq, ?_⟩
  rw [hstate]
  rw [findMessage_updateMessage st messageId
    (fun m => { m with reactions := addReaction m.reactions uid emoji })
    (fun m => rfl), hmsg]
  have hid2 : msg.id = messageId := by simpa using hid
  simp [hid2]

/-- Witness for C6: user 30, who is no participant of chat 1, reacts to
message 5 of chat 1; the reaction is persisted and broadcast to chat 1's
full room anyway. -/
theorem addReaction_persists_and_broadcasts_witness :
    exSockStranger.userId = some 30 ∧
    findMessage exState 5 = some exMessage ∧
    isParticipant exChat 30 = false ∧
    addReactionHandler exState exSockStranger 5 "👍" =
      ⟨updateMessage exState 5
          (fun m => { m with reactions := addReaction m.reactions 30 "👍" }),
        exSockStranger,
        [⟨.room 1, "reaction-added", .reaction 5 30 "👍"⟩]⟩ :=
  ⟨rfl, rfl, rfl,
    (addReaction_persists_and_broadcasts exState exSockStranger 5 "👍" 30 exMessage
      rfl rfl).1⟩

/-- C2, equational core: the exact result of a participant's send-message. -/
theorem sendMessage_participant_eq (st : ServerState) (sock : Socket) (chatId : Nat)
    (p : SendPayload) (now uid : Nat) (chat : Chat)
    (hauth : sock.userId = some uid)
    (hchat : findChat st chatId = some chat)
    (hpart : isParticipant chat uid = true) :
    sendMessageHandler st sock chatId p now =
      ⟨updateChat
          { st with
              messages := st.messages ++ [mkMessage st chatId uid p],
              nextMessageId := st.nextMessageId + 1 }
          chatId
          (fun c => { c with lastMessage := some st.nextMessageId, lastActivity := now }),
        sock,
        [⟨.room chatId, "new-message", .newMsg (mkMessage st chatId uid p) chatId⟩]⟩ := by
  simp [sendMessageHandler, hauth, hchat, hpart, mkMessage]

/-- C2: a participant's `send-message` persists exactly one new Message
whose sender is the caller and whose content type defaults to "text",
updates the chat's lastMessage pointer and lastActivity timestamp, emits
exactly one `new-message` broadcast targeted at the chat's full room, and
that broadcast is delivered to precisely the sockets subscribed to the
room — the sender's own included, since the room target excludes nobody. -/
theorem sendMessage_participant_effects (st : ServerState) (sock : Socket)
    (chatId : Nat) (p : SendPayload) (now uid : Nat) (chat : Chat)
    (hauth : sock.userId = some uid)
    (hchat : findChat st chatId = some chat)
    (hpart : isParticipant chat uid = true) :
    (sendMessageHandler st sock chatId p now).state.messages
        = st.messages ++ [mkMessage st chatId uid p] ∧
    (mkMessage st chatId uid p).sender = uid ∧
    (p.ctype = none → (mkMessage st chatId uid p).content.ctype = "text") ∧
    (findChat (sendMessageHandler st sock chatId p now).state chatId).map
        (fun c => (c.lastMessage, c.lastActivity))
      = some (some st.nextMessageId, now) ∧
    (sendMessageHandler st sock chatId p now).emits
      = [⟨.room chatId, "new-message", .newMsg (mkMessage st chatId uid p) chatId⟩] ∧
    (sendMessageHandler st sock chatId p now).state.rooms = st.rooms ∧
    (∀ s : Nat,
      delivers (sendMessageHandler st sock chatId p now).state
          ⟨.room chatId, "new-message", .newMsg (mkMessage st chatId uid p) chatId⟩ s
        = st.rooms.contains (chatId, s)) := by
  have hchat2 : st.chats.find? (fun c => c.id == chatId) = some chat := hchat
  have hid0 := List.find?_some hchat2
  have hid : (chat.id == chatId) = true := hid0
  have heq := sendMessage_participant_eq st sock chatId p now uid chat hauth hchat hpart
  have hstate : (sendMessageHandler st sock chatId p now).state =
      updateChat
        { st with
            messages := st.messages ++ [mkMessage st chatId uid p],
            nextMessageId := st.nextMessageId + 1 }
        chatId
        (fun c => { c with lastMessage := some st.nextMessageId, lastActivity := now }) := by
    rw [heq]
  have hemits : (sendMessageHandler st sock chatId p now).emits =
      [⟨.room chatId, "new-message", .newMsg (mkMessage st chatId uid p) chatId⟩] := by
    rw [heq]
  refine ⟨?_, rfl, ?_, ?_, hemits, ?_, ?_⟩
  · rw [hstate]
    simp [updateChat]
  · intro hc
    simp [mkMessage, jsOrStr, hc]
  · rw [hstate]
    rw [findChat_updateChat _ chatId
      (fun c => { c with lastMessage := some st.nextMessageId, lastActivity := now })
      (fun c => rfl)]
    have hchatb : findChat
        { st with
            messages := st.messages ++ [mkMessage st chatId uid p],
            nextMessageId := st.nextMessageId + 1 } chatId = some chat := hchat
    rw [hchatb]
    have hid2 : chat.id = chatId := by simpa using hid
    simp [hid2]
  · rw [hstate]
    simp [updateChat]
  · intro s
    rw [hstate]
    simp [delivers, updateChat]

/-- Witness for C2: user 10 sends "hi" to chat 1 with no explicit content
type; all conjuncts hold at this concrete input. -/
theorem sendMessage_participant_effects_witness :
    exSockAuth.userId = some 10 ∧
    findChat exState 1 = some exChat ∧
    isParticipant exChat 10 = true ∧
    (sendMessageHandler exState exSockAuth 1 ⟨"hi", none, none, none⟩ 60).state.messages
      = exState.messages ++ [mkMessage exState 1 10 ⟨"hi", none, none, none⟩] :=
  ⟨rfl, rfl, rfl,
    (sendMessage_participant_effects exState exSockAuth 1 ⟨"hi", none, none, none⟩ 60 10
      exChat rfl rfl rfl).1⟩

/-- A server state like `exState` but with an empty connection registry,
as at process start. -/
def exStateEmptyReg : ServerState :=
  ⟨[exUser, exFriend, exStranger], [exChat], [exMessage], [], [(1, 99)], 6⟩

/-- C4: starting from an empty registry, after any sequence of events (the
authenticate and disconnect events are the only ones that touch the
registry) every user identifier maps to at most one connection entry; and
a successful authenticate — in particular a second one for an already
registered user — leaves the registry with exactly one entry for that
user, holding the new socket (overwrite, not append). -/
theorem connection_registry_at_most_one (st0 : ServerState)
    (h0 : st0.connectedUsers = [])
    (steps : List (Socket × ClientEvent × Nat)) (k : Nat)
    (st : ServerState) (sock : Socket) (raw : Option String) (now : Nat) (ok : Bool)
    (user : User)
    (hreg : ∀ k2, ((st.connectedUsers.map Prod.fst).count k2) ≤ 1)
    (hfalsy : jsFalsy raw = false)
    (huser : findUserByClerk st (raw.getD "") = some user) :
    (((runEvents st0 steps).connectedUsers.map Prod.fst).count k) ≤ 1 ∧
    mapGet (authenticateHandler st sock raw now ok).state.connectedUsers user.id =
      some ⟨sock.id, user.id, raw.getD ""⟩ ∧
    (((authenticateHandler st sock raw now ok).state.connectedUsers.map
        Prod.fst).count user.id) = 1 := by
  have hcu : (authenticateHandler st sock raw now ok).state.connectedUsers =
      mapSet st.connectedUsers user.id ⟨sock.id, user.id, raw.getD ""⟩ := by
    simp [authenticateHandler, hfalsy, huser, updateUserStatus]
  refine ⟨?_, ?_, ?_⟩
  · apply registry_runEvents
    intro k2
    rw [h0]
    simp
  · rw [hcu]
    exact mapGet_mapSet_self _ _ _
  · rw [hcu]
    exact count_keys_mapSet_self _ _ _ hreg

/-- Witness for C4: user 20 is already registered on socket 99 in
`exState`; a fresh socket 77 authenticates as the same user and the
registry ends with exactly one entry for user 20, holding socket 77. -/
theorem connection_registry_at_most_one_witness :
    exStateEmptyReg.connectedUsers = [] ∧
    jsFalsy (some "clerk-b") = false ∧
    findUserByClerk exState "clerk-b" = some exFriend ∧
    mapGet (authenticateHandler exState ⟨77, none, none⟩ (some "clerk-b") 5
        true).state.connectedUsers 20 = some ⟨77, 20, "clerk-b"⟩ :=
  ⟨rfl, rfl, rfl,
    (connection_registry_at_most_one exStateEmptyReg rfl [] 0 exState ⟨77, none, none⟩
      (some "clerk-b") 5 true exFriend
      (by
        intro k2
        by_cases h : k2 = 20 <;> simp [exState, h])
      rfl rfl).2.1⟩

/-- C7: on disconnect of authenticated user U, with F a friend of U that
has a registry entry (on a socket other than U's and unique among U's
friends' sockets): exactly one of the emitted events is delivered to F's
socket, and it is the `friend-status-change` {U, offline} event; the
number of emitted events equals the number of U's friends with registry
entries, so an unconnected friend receives nothing; no `error` event is
emitted; and if loading the friend list fails, nothing is emitted but the
registry removal and the offline flag update still happen identically. -/
theorem disconnect_friend_notification (st : ServerState) (sock : Socket)
    (U now F : Nat) (connF : ConnEntry) (u : User)
    (hauth : sock.userId = some U)
    (hu : findUserById st U = some u)
    (hcount : u.friends.count F = 1)
    (hFU : F ≠ U)
    (hFreg : mapGet st.connectedUsers F = some connF)
    (hinj : ∀ f2 ∈ u.friends, f2 ≠ F →
      (mapGet (mapDelete st.connectedUsers U) f2).map ConnEntry.socketId ≠
        some connF.socketId)
    (hsock : connF.socketId ≠ sock.id) :
    ((disconnectHandler st sock now true).emits.countP
        (fun em => delivers (disconnectHandler st sock now true).state em
          connF.socketId)) = 1 ∧
    (⟨.direct connF.socketId sock.id, "friend-status-change",
        .friendStatus U false now⟩ : Emit) ∈ (disconnectHandler st sock now true).emits ∧
    (disconnectHandler st sock now true).emits.length
      = u.friends.countP
          (fun fr => (mapGet (mapDelete st.connectedUsers U) fr).isSome) ∧
    ((disconnectHandler st sock now true).emits.countP
        (fun em => em.event == "error")) = 0 ∧
    (disconnectHandler st sock now false).emits = [] ∧
    (disconnectHandler st sock now false).state
      = (disconnectHandler st sock now true).state := by
  have hu' : st.users.find? (fun x => x.id == U) = some u := hu
  have huid0 := List.find?_some hu'
  have huid : u.id = U := by simpa using huid0
  have hu1 : findUserById { st with connectedUsers := mapDelete st.connectedUsers U } U
      = some u := hu
  have hu2 : findUserById (updateUserStatus
      { st with connectedUsers := mapDelete st.connectedUsers U } U false now) U
      = some { u with isOnline := false, lastSeen := now } := by
    rw [findUserById_updateUserStatus, hu1]
    simp [huid]
  have hd : disconnectHandler st sock now true =
      ⟨updateUserStatus { st with connectedUsers := mapDelete st.connectedUsers U }
          U false now,
        sock,
        u.friends.filterMap (fun fr =>
          match mapGet (mapDelete st.connectedUsers U) fr with
          | some conn => some ⟨.direct conn.socketId sock.id, "friend-status-change",
              .friendStatus U false now⟩
          | none => none)⟩ := by
    simp only [disconnectHandler, hauth]
    rw [notifyFriendsStatusChange, if_pos rfl]
    rw [hu2]
    rfl
  have hFreg2 : mapGet (mapDelete st.connectedUsers U) F = some connF := by
    rw [mapGet_mapDelete_ne _ _ _ hFU]
    exact hFreg
  have hdF : disconnectHandler st sock now false =
      ⟨updateUserStatus { st with connectedUsers := mapDelete st.connectedUsers U }
          U false now, sock, []⟩ := by
    simp [disconnectHandler, hauth, notifyFriendsStatusChange]
  refine ⟨?_, ?_, ?_, ?_, ?_, ?_⟩
  · rw [hd]
    have hq : (u.friends.filterMap (fun fr =>
        match mapGet (mapDelete st.connectedUsers U) fr with
        | some conn => some (⟨.direct conn.socketId sock.id, "friend-status-change",
            .friendStatus U false now⟩ : Emit)
        | none => none)).countP
          (fun em => delivers
            (updateUserStatus { st with connectedUsers := mapDelete st.connectedUsers U }
              U false now) em connF.socketId)
        = u.friends.countP (fun fr => fr == F) := by
      apply countP_filterMap_eq
      intro fr hfr
      by_cases hfF : fr = F
      · subst hfF
        rw [hFreg2]
        simp [delivers, hsock]
      · cases hm : mapGet (mapDelete st.connectedUsers U) fr with
        | none => simp [hfF]
        | some e2 =>
          have hne : e2.socketId ≠ connF.socketId := by
            have := hinj fr hfr hfF
            rw [hm] at this
            simp at this
            exact this
          have hb1 : (connF.socketId == e2.socketId) = false :=
            beq_eq_false_iff_ne.mpr (Ne.symm hne)
          have hb2 : (fr == F) = false := beq_eq_false_iff_ne.mpr hfF
          simp [delivers, hb1, hb2]
    rw [hq]
    exact hcount
  · rw [hd]
    apply List.mem_filterMap.mpr
    refine ⟨F, ?_, ?_⟩
    · exact List.count_pos_iff.mp (by omega)
    · rw [hFreg2]
  · rw [hd]
    rw [length_filterMap_eq_countP]
    apply List.countP_congr
    intro fr _
    cases hm : mapGet (mapDelete st.connectedUsers U) fr with
    | none => simp
    | some e2 => simp
  · rw [hd]
    have hz : (u.friends.filterMap (fun fr =>
        match mapGet (mapDelete st.connectedUsers U) fr with
        | some conn => some (⟨.direct conn.socketId sock.id, "friend-status-change",
            .friendStatus U false now⟩ : Emit)
        | none => none)).countP (fun em => em.event == "error")
        = u.friends.countP (fun _ => false) := by
      apply countP_filterMap_eq
      intro fr _
      cases hm : mapGet (mapDelete st.connectedUsers U) fr with
      | none => rfl
      | some e2 => rfl
    rw [hz]
    simp
  · rw [hdF]
  · rw [hdF, hd]

/-- Witness for C7: user 10 (friends 20 and 30) disconnects from socket 7;
friend 20 is registered on socket 99, friend 30 is not. -/
theorem disconnect_friend_notification_witness :
    exSockAuth.userId = some 10 ∧
    findUserById exState 10 = some exUser ∧
    exUser.friends.count 20 = 1 ∧
    (⟨.direct 99 7, "friend-status-change", .friendStatus 10 false 80⟩ : Emit)
      ∈ (disconnectHandler exState exSockAuth 80 true).emits ∧
    (disconnectHandler exState exSockAuth 80 false).emits = [] :=
  have h := disconnect_friend_notification exState exSockAuth 10 80 20
    ⟨99, 20, "clerk-b"⟩ exUser rfl rfl (by decide) (by decide) rfl (by decide) (by decide)
  ⟨rfl, rfl, by decide, h.2.1, h.2.2.2.2.1⟩

end ChatRelay
